import Mathlib

/-!
# Verification of the Ademi user-administration micro-app

Shallow embedding of the repository's code:

* `src/services/supabaseService.ts` — the mock backend service
  (`SupabaseService.initialize`, `getUsers`, `deleteUser`) becomes pure
  state-passing functions over `ServiceState`.
* `src/unnamed/part_000` — the main `App` component (the variant with
  search, toast and confirmation modal) becomes explicit event handlers
  over `AppState` (`initApp`, `handleAuthMessage`, `timerFire`,
  `loadUsers`, `handleConfirmDelete`, `filteredUsers`).

JavaScript promises resolve/reject; we model a service call as returning
`Except ServiceError _` (together with the updated module-level store
where the call mutates it).  JavaScript string truthiness (empty string,
`null` and `undefined` are falsy) is modelled by `tokenTruthy` on
`Option String`.
-/

/- ### Data model and service layer (`src/services/supabaseService.ts`) -/

/-- A user record, from `src/types` as used by the service:
`{ id: string, username: string }`. -/
structure UserProfile where
  id : String
  username : String
deriving DecidableEq, Repr

/-- The distinguishable failures raised by `supabaseService.ts`,
tagged by the exact `Error` message the source constructs. -/
inductive ServiceError where
  | tokenMissing
  | notInitialized
  | notFound (userId : String)
deriving DecidableEq, Repr

/-- The `Error` message text attached by the source to each failure. -/
def ServiceError.message : ServiceError → String
  | .tokenMissing => "Authentication token is missing."
  | .notInitialized => "Supabase client not initialized."
  | .notFound uid => "User with ID " ++ uid ++ " not found."

/-- The mutable module-level state of `supabaseService.ts`:
the private `isInitialized` flag and the `mockProfiles` array. -/
structure ServiceState where
  isInitialized : Bool
  mockProfiles : List UserProfile
deriving DecidableEq, Repr

/-- JavaScript truthiness of the token argument (`if (token)`):
`null`/`undefined` and the empty string are falsy. -/
def tokenTruthy : Option String → Bool
  | none => false
  | some t => t ≠ ""

/-- `SupabaseService.initialize(token)`: if the token is truthy, sets
`isInitialized = true` and resolves; otherwise rejects with
"Authentication token is missing.".  (The name `initialize` from the
source is shortened to `initService` here.) -/
def initService (s : ServiceState) (token : Option String) :
    ServiceState × Except ServiceError Unit :=
  if tokenTruthy token then ({ s with isInitialized := true }, Except.ok ())
  else (s, Except.error ServiceError.tokenMissing)

/-- `SupabaseService.getUsers()`: rejects with "Supabase client not
initialized." unless initialized, otherwise resolves with a copy of
`mockProfiles` (`[...mockProfiles]`).  It never mutates the store, so it
returns no new state. -/
def getUsers (s : ServiceState) : Except ServiceError (List UserProfile) :=
  if s.isInitialized then Except.ok s.mockProfiles
  else Except.error ServiceError.notInitialized

/-- `SupabaseService.deleteUser(userId)`: rejects when uninitialized;
otherwise reassigns `mockProfiles = mockProfiles.filter(p => p.id !== userId)`
and resolves `{success: true}` if the length shrank, else rejects with
"User with ID ... not found.".  Note the source assigns the filtered
array in both branches. -/
def deleteUser (s : ServiceState) (userId : String) :
    ServiceState × Except ServiceError Unit :=
  if s.isInitialized then
    let newProfiles := s.mockProfiles.filter (fun p => p.id != userId)
    if newProfiles.length < s.mockProfiles.length then
      ({ s with mockProfiles := newProfiles }, Except.ok ())
    else
      ({ s with mockProfiles := newProfiles },
       Except.error (ServiceError.notFound userId))
  else (s, Except.error ServiceError.notInitialized)

/- ### Search filtering (`filteredUsers` in `src/unnamed/part_000`) -/

/-- JavaScript `toLowerCase()`, which lowercases character by
character: mapping `Char.toLower` over the string's characters.  (This
is `String.toLower` char for char; the list form keeps it
kernel-computable.) -/
def strToLower (s : String) : String :=
  String.mk (s.data.map Char.toLower)

/-- JavaScript `String.prototype.includes` on the underlying character
lists: `sub` occurs contiguously somewhere in the argument. -/
def charsIncl (sub : List Char) : List Char → Bool
  | [] => sub.isEmpty
  | c :: t => sub.isPrefixOf (c :: t) || charsIncl sub t

/-- `hay.includes(sub)` for strings. -/
def strIncludes (hay sub : String) : Bool :=
  charsIncl sub.data hay.data

/-- The `filteredUsers` memo of the App component:
`users.filter(u => u.username.toLowerCase().includes(searchTerm.toLowerCase()))`. -/
def filteredUsers (users : List UserProfile) (searchTerm : String) :
    List UserProfile :=
  users.filter (fun u => strIncludes (strToLower u.username) (strToLower searchTerm))

/- ### App component state and event handlers (`src/unnamed/part_000`) -/

/-- Outbound `postMessage` calls to the parent window. -/
inductive OutMsg where
  | appLoaded
  | userDeleted (userId : String)
deriving DecidableEq, Repr

/-- The toast variant (`type: 'success' | 'error'` in the source). -/
inductive ToastKind where
  | success
  | error
deriving DecidableEq, Repr

/-- The `ToastState` interface of the source. -/
structure ToastState where
  message : String
  kind : ToastKind
deriving DecidableEq, Repr

/-- The React state of the App component together with the service
singleton it talks to, the pending fallback timer, whether the app runs
embedded (`window.self !== window.top`), and the log of outbound
messages. -/
structure AppState where
  service : ServiceState
  users : List UserProfile
  isLoading : Bool
  error : Option String
  isInitialized : Bool
  searchTerm : String
  userToDelete : Option UserProfile
  toast : Option ToastState
  timerActive : Bool
  embedded : Bool
  emitted : List OutMsg
deriving DecidableEq, Repr

/-- The placeholder development credential used by the fallback timer. -/
def devMockToken : String := "dev-mock-token"

/-- The fallback window of the `setTimeout` in the init effect. -/
def initTimeoutMs : Nat := 1500

/-- `loadUsers`: awaits `getUsers()`; on success stores the fetched
list, on failure records a page-level error; either way loading ends. -/
def loadUsers (a : AppState) : AppState :=
  match getUsers a.service with
  | Except.ok fetched =>
      { a with users := fetched, error := none, isLoading := false }
  | Except.error e =>
      { a with error := some ("Failed to load users: " ++ e.message),
               isLoading := false }

/-- `initializeApp(token)`: returns immediately if already initialized;
otherwise awaits the service init and either marks the gate ready and
loads users, or records a terminal page-level error. -/
def initApp (a : AppState) (token : Option String) : AppState :=
  if a.isInitialized then a
  else
    match initService a.service token with
    | (s', Except.ok _) =>
        loadUsers { a with service := s', isInitialized := true }
    | (s', Except.error e) =>
        { a with service := s',
                 error := some ("Initialization failed: " ++ e.message),
                 isLoading := false }

/-- `handleMessage` on an `AUTH_TOKEN` message: cancels the dev-mode
fallback timer (`clearTimeout(initTimeout)`) and runs `initializeApp`
with the received token. -/
def handleAuthMessage (a : AppState) (token : Option String) : AppState :=
  initApp { a with timerActive := false } token

/-- The fallback `setTimeout` callback firing: only possible while the
timer is pending; consumes the timer and, if the gate is still not
ready, initializes with the placeholder development credential. -/
def timerFire (a : AppState) : AppState :=
  if a.timerActive then
    let cleared := { a with timerActive := false }
    if cleared.isInitialized then cleared
    else initApp cleared (some devMockToken)
  else a

/-- `handleDeleteRequest(user)`: records the pending-deletion target
(opens the confirmation modal); a new request replaces the old one. -/
def handleDeleteRequest (a : AppState) (u : UserProfile) : AppState :=
  { a with userToDelete := some u }

/-- `handleConfirmDelete`: no-op without a pending target; otherwise
awaits `deleteUser`.  On success it notifies the parent (when embedded),
shows a success toast, closes the modal and refreshes the list; on
failure it shows an error toast carrying the failure reason and closes
the modal without refreshing. -/
def handleConfirmDelete (a : AppState) : AppState :=
  match a.userToDelete with
  | none => a
  | some u =>
    match deleteUser a.service u.id with
    | (s', Except.ok _) =>
        loadUsers
          { a with service := s',
                   emitted :=
                     if a.embedded then a.emitted ++ [OutMsg.userDeleted u.id]
                     else a.emitted,
                   toast := some { message := "Usuário deletado com sucesso!",
                                   kind := ToastKind.success },
                   userToDelete := none }
    | (s', Except.error e) =>
        { a with service := s',
                 toast := some { message := "Falha ao deletar usuário: "
                                   ++ e.message,
                                 kind := ToastKind.error },
                 userToDelete := none }

/-- The externally observable part of the app: session readiness, the
backing store, the displayed list and the outbound messages. -/
def observables (a : AppState) :
    Bool × ServiceState × List UserProfile × List OutMsg :=
  (a.isInitialized, a.service, a.users, a.emitted)

/- ### Concrete states used as witnesses -/

/-- A small initialized store with two users. -/
def storeW : ServiceState :=
  { isInitialized := true,
    mockProfiles := [{ id := "u1", username := "alice@example.com" },
                     { id := "u2", username := "bob@example.com" }] }

/-- An app state after a completed successful handshake. -/
def appReady : AppState :=
  { service := { isInitialized := true,
                 mockProfiles := [{ id := "u1", username := "alice@example.com" }] },
    users := [{ id := "u1", username := "alice@example.com" }],
    isLoading := false, error := none, isInitialized := true,
    searchTerm := "", userToDelete := none, toast := none,
    timerActive := false, embedded := true, emitted := [] }

/-- The app state right after mount: nothing initialized, fallback
timer pending. -/
def appStart : AppState :=
  { service := { isInitialized := false,
                 mockProfiles := [{ id := "u1", username := "alice@example.com" }] },
    users := [], isLoading := true, error := none, isInitialized := false,
    searchTerm := "", userToDelete := none, toast := none,
    timerActive := true, embedded := false, emitted := [] }

/-- A ready app state with a pending deletion whose target id is absent
from the store. -/
def appDeleting : AppState :=
  { service := { isInitialized := true,
                 mockProfiles := [{ id := "u1", username := "alice@example.com" }] },
    users := [{ id := "u1", username := "alice@example.com" }],
    isLoading := false, error := none, isInitialized := true,
    searchTerm := "",
    userToDelete := some { id := "u2", username := "bob@example.com" },
    toast := none, timerActive := false, embedded := false, emitted := [] }

/- ### Helper lemmas -/

/-- Filtering out an id that occurs nowhere keeps the list intact. -/
lemma filter_id_ne_eq_self (l : List UserProfile) (uid : String)
    (h : uid ∉ l.map UserProfile.id) :
    l.filter (fun p => p.id != uid) = l := by
  apply List.filter_eq_self.mpr
  intro p hp
  simp only [bne_iff_ne, ne_eq, decide_eq_true_eq]
  intro he
  exact h (he ▸ List.mem_map_of_mem UserProfile.id hp)

/-- When ids are unique and `uid` occurs, filtering it out drops exactly
one element. -/
lemma length_filter_id_ne (l : List UserProfile) (uid : String)
    (hnd : (l.map UserProfile.id).Nodup) (hm : uid ∈ l.map UserProfile.id) :
    (l.filter (fun p => p.id != uid)).length + 1 = l.length := by
  induction l with
  | nil => simp at hm
  | cons p t ih =>
    simp only [List.map_cons, List.nodup_cons] at hnd
    by_cases h : p.id = uid
    · have ht : uid ∉ t.map UserProfile.id := h ▸ hnd.1
      have hc : ¬((p.id != uid) = true) := by simp [h]
      rw [List.filter_cons, if_neg hc, filter_id_ne_eq_self t uid ht]
      simp
    · have hm' : uid ∈ t.map UserProfile.id := by
        rcases List.mem_cons.mp
            (show uid ∈ p.id :: t.map UserProfile.id from hm) with h1 | h1
        · exact absurd h1.symm h
        · exact h1
      have hlen := ih hnd.2 hm'
      rw [List.filter_cons, if_pos (bne_iff_ne.mpr h)]
      simp only [List.length_cons]
      omega

/-- The filtered list never contains the filtered-out id. -/
lemma not_mem_map_id_filter (l : List UserProfile) (uid : String) :
    uid ∉ (l.filter (fun p => p.id != uid)).map UserProfile.id := by
  intro h
  rcases List.mem_map.mp h with ⟨p, hp, hid⟩
  rcases List.mem_filter.mp hp with ⟨_, hb⟩
  exact (bne_iff_ne.mp hb) hid

/-- `deleteUser` never flips the initialization flag. -/
lemma deleteUser_preserves_init (s : ServiceState) (uid : String) :
    (deleteUser s uid).1.isInitialized = s.isInitialized := by
  rcases s with ⟨ini, profiles⟩
  cases ini
  · rfl
  · by_cases hlt :
        (profiles.filter (fun p => p.id != uid)).length < profiles.length
    · simp [deleteUser, hlt]
    · simp [deleteUser, hlt]

/-- On an initialized store, `deleteUser` never reports the
not-initialized error. -/
lemma deleteUser_init_no_notInitialized (s : ServiceState) (uid : String)
    (h : s.isInitialized = true) :
    (deleteUser s uid).2 ≠ Except.error ServiceError.notInitialized := by
  by_cases hlt :
      (s.mockProfiles.filter (fun p => p.id != uid)).length <
        s.mockProfiles.length
  · simp [deleteUser, h, hlt]
  · simp [deleteUser, h, hlt]

/-- A fired or cancelled timer can fire no further. -/
lemma timerFire_inactive (a : AppState) (h : a.timerActive = false) :
    timerFire a = a := by
  simp [timerFire, h]

/-- The empty pattern occurs in every character list. -/
lemma charsIncl_nil (hay : List Char) : charsIncl [] hay = true := by
  induction hay with
  | nil => rfl
  | cons c t ih => simp [charsIncl, List.isPrefixOf, ih]

/-- Filtering with the empty search term keeps every profile. -/
lemma filteredUsers_empty_term (users : List UserProfile) :
    filteredUsers users "" = users := by
  apply List.filter_eq_self.mpr
  intro u _
  show strIncludes (strToLower u.username) (strToLower "") = true
  have h0 : (strToLower "").data = ([] : List Char) := rfl
  simp [strIncludes, h0, charsIncl_nil]

/- ### Claims -/

/-- **C1** — While the Session Gate is uninitialized, both `getUsers`
(fetchAll) and `deleteUser` (deleteById) fail fast with the
not-initialized error: no data is returned and the store is untouched. -/
theorem c1_uninitialized_fail_fast (s : ServiceState) (uid : String)
    (h : s.isInitialized = false) :
    getUsers s = Except.error ServiceError.notInitialized ∧
    deleteUser s uid = (s, Except.error ServiceError.notInitialized) := by
  constructor
  · simp [getUsers, h]
  · simp [deleteUser, h]

theorem c1_uninitialized_fail_fast_witness :
    getUsers { isInitialized := false, mockProfiles := [] } =
      Except.error ServiceError.notInitialized ∧
    deleteUser { isInitialized := false, mockProfiles := [] } "u1" =
      ({ isInitialized := false, mockProfiles := [] },
       Except.error ServiceError.notInitialized) :=
  c1_uninitialized_fail_fast { isInitialized := false, mockProfiles := [] } "u1" rfl

/-- **C2** — On an initialized store whose ids are unique (the data
model makes `id` a unique identifier), deleting a present id succeeds,
removes exactly one record, and `getUsers` on the resulting store
returns a list that excludes the deleted id. -/
theorem c2_delete_present (s : ServiceState) (uid : String)
    (hinit : s.isInitialized = true)
    (hnd : (s.mockProfiles.map UserProfile.id).Nodup)
    (hmem : uid ∈ s.mockProfiles.map UserProfile.id) :
    deleteUser s uid =
      ({ s with mockProfiles := s.mockProfiles.filter (fun p => p.id != uid) },
       Except.ok ()) ∧
    (deleteUser s uid).1.mockProfiles.length + 1 = s.mockProfiles.length ∧
    getUsers (deleteUser s uid).1 =
      Except.ok ((deleteUser s uid).1.mockProfiles) ∧
    uid ∉ (deleteUser s uid).1.mockProfiles.map UserProfile.id := by
  have hlen := length_filter_id_ne s.mockProfiles uid hnd hmem
  have hlt : (s.mockProfiles.filter (fun p => p.id != uid)).length <
      s.mockProfiles.length := by omega
  have hdel : deleteUser s uid =
      ({ s with mockProfiles := s.mockProfiles.filter (fun p => p.id != uid) },
       Except.ok ()) := by
    simp [deleteUser, hinit, hlt]
  refine ⟨hdel, ?_, ?_, ?_⟩
  · rw [hdel]; exact hlen
  · rw [hdel]; simp [getUsers, hinit]
  · rw [hdel]; exact not_mem_map_id_filter s.mockProfiles uid

theorem c2_delete_present_witness :
    deleteUser storeW "u1" =
      ({ storeW with
         mockProfiles := storeW.mockProfiles.filter (fun p => p.id != "u1") },
       Except.ok ()) ∧
    (deleteUser storeW "u1").1.mockProfiles.length + 1 =
      storeW.mockProfiles.length ∧
    getUsers (deleteUser storeW "u1").1 =
      Except.ok ((deleteUser storeW "u1").1.mockProfiles) ∧
    "u1" ∉ (deleteUser storeW "u1").1.mockProfiles.map UserProfile.id :=
  c2_delete_present storeW "u1" rfl (by decide) (by decide)

/-- **C3** — On an initialized store, deleting an id that is not present
fails with `NotFound` for that id and leaves the store contents exactly
as they were. -/
theorem c3_delete_absent_not_found (s : ServiceState) (uid : String)
    (hinit : s.isInitialized = true)
    (habs : uid ∉ s.mockProfiles.map UserProfile.id) :
    deleteUser s uid = (s, Except.error (ServiceError.notFound uid)) := by
  rcases s with ⟨ini, profiles⟩
  simp only [ServiceState.isInitialized] at hinit
  subst hinit
  have hfe := filter_id_ne_eq_self profiles uid habs
  simp [deleteUser, hfe]

theorem c3_delete_absent_not_found_witness :
    deleteUser { isInitialized := true,
                 mockProfiles := [{ id := "u1", username := "alice@example.com" }] }
        "u2" =
      ({ isInitialized := true,
         mockProfiles := [{ id := "u1", username := "alice@example.com" }] },
       Except.error (ServiceError.notFound "u2")) :=
  c3_delete_absent_not_found
    { isInitialized := true,
      mockProfiles := [{ id := "u1", username := "alice@example.com" }] }
    "u2" rfl (by decide)

/-- **C4** — At-most-once initialization: once the app is ready, a
further credential message or a timer firing changes none of the
observables (readiness, store, displayed list, emitted messages) and
readiness never reverts; at the service level neither `initService` nor
`deleteUser` ever clears the initialized flag. -/
theorem c4_at_most_once (a : AppState) (tok : Option String)
    (s : ServiceState) (uid : String) (t : Option String)
    (h : a.isInitialized = true) (hs : s.isInitialized = true) :
    observables (handleAuthMessage a tok) = observables a ∧
    observables (timerFire a) = observables a ∧
    (handleAuthMessage a tok).isInitialized = true ∧
    (timerFire a).isInitialized = true ∧
    (initService s t).1.isInitialized = true ∧
    (deleteUser s uid).1.isInitialized = true := by
  have h1 : handleAuthMessage a tok = { a with timerActive := false } := by
    simp [handleAuthMessage, initApp, h]
  have h2 : observables (timerFire a) = observables a ∧
      (timerFire a).isInitialized = true := by
    by_cases hta : a.timerActive = true
    · simp [timerFire, hta, h, observables]
    · simp at hta
      simp [timerFire, hta, h, observables]
  refine ⟨?_, h2.1, ?_, h2.2, ?_, ?_⟩
  · rw [h1]; rfl
  · rw [h1]; exact h
  · by_cases htt : tokenTruthy t = true
    · simp [initService, htt]
    · simp at htt
      simp [initService, htt, hs]
  · rw [deleteUser_preserves_init]; exact hs

theorem c4_at_most_once_witness :
    observables (handleAuthMessage appReady (some "tok")) = observables appReady ∧
    observables (timerFire appReady) = observables appReady ∧
    (handleAuthMessage appReady (some "tok")).isInitialized = true ∧
    (timerFire appReady).isInitialized = true ∧
    (initService { isInitialized := true, mockProfiles := [] }
        (some "t2")).1.isInitialized = true ∧
    (deleteUser { isInitialized := true, mockProfiles := [] }
        "u9").1.isInitialized = true :=
  c4_at_most_once appReady (some "tok")
    { isInitialized := true, mockProfiles := [] } "u9" (some "t2") rfl rfl

/-- **C5** — A falsy credential (absent or empty) makes initialization
fail with the missing-credential error; the Session Gate stays
uninitialized, the displayed list is untouched (no fetch happened), the
fallback timer has been cancelled (no automatic retry), and the
terminal page-level error is recorded. -/
theorem c5_missing_credential (s : ServiceState) (a : AppState)
    (tok : Option String)
    (hf : tokenTruthy tok = false)
    (ha : a.isInitialized = false)
    (hs : a.service.isInitialized = false) :
    initService s tok = (s, Except.error ServiceError.tokenMissing) ∧
    (handleAuthMessage a tok).isInitialized = false ∧
    (handleAuthMessage a tok).service.isInitialized = false ∧
    (handleAuthMessage a tok).users = a.users ∧
    (handleAuthMessage a tok).timerActive = false ∧
    (handleAuthMessage a tok).error =
      some ("Initialization failed: " ++ ServiceError.tokenMissing.message) := by
  have hsvc : ∀ s₀ : ServiceState,
      initService s₀ tok = (s₀, Except.error ServiceError.tokenMissing) := by
    intro s₀; simp [initService, hf]
  have hmsg : handleAuthMessage a tok =
      { a with timerActive := false,
               error := some ("Initialization failed: "
                 ++ ServiceError.tokenMissing.message),
               isLoading := false } := by
    simp [handleAuthMessage, initApp, ha, hsvc]
  exact ⟨hsvc s, by rw [hmsg]; exact ha, by rw [hmsg]; exact hs,
    by rw [hmsg], by rw [hmsg], by rw [hmsg]⟩

theorem c5_missing_credential_witness :
    initService { isInitialized := false, mockProfiles := [] } none =
      ({ isInitialized := false, mockProfiles := [] },
       Except.error ServiceError.tokenMissing) ∧
    (handleAuthMessage appStart none).isInitialized = false ∧
    (handleAuthMessage appStart none).service.isInitialized = false ∧
    (handleAuthMessage appStart none).users = appStart.users ∧
    (handleAuthMessage appStart none).timerActive = false ∧
    (handleAuthMessage appStart none).error =
      some ("Initialization failed: " ++ ServiceError.tokenMissing.message) :=
  c5_missing_credential { isInitialized := false, mockProfiles := [] }
    appStart none rfl rfl rfl

/-- **C6** — The fallback window is the fixed 1500ms; if the timer fires
with no credential received, initialization proceeds with the
placeholder development credential exactly once (a second firing is a
no-op); and a real credential arriving first cancels the timer, so the
fallback initialization never runs. -/
theorem c6_fallback_timer (a : AppState) (tok : String)
    (hi : a.isInitialized = false)
    (hs : a.service.isInitialized = false)
    (ht : a.timerActive = true)
    (htok : tok ≠ "") :
    initTimeoutMs = 1500 ∧
    (timerFire a).isInitialized = true ∧
    (timerFire a).service.isInitialized = true ∧
    timerFire (timerFire a) = timerFire a ∧
    (handleAuthMessage a (some tok)).timerActive = false ∧
    timerFire (handleAuthMessage a (some tok)) = handleAuthMessage a (some tok) := by
  have htt : tokenTruthy (some devMockToken) = true := rfl
  have hfire : timerFire a =
      { a with timerActive := false,
               service := { a.service with isInitialized := true },
               isInitialized := true,
               users := a.service.mockProfiles,
               error := none,
               isLoading := false } := by
    simp [timerFire, ht, hi, initApp, initService, htt, loadUsers, getUsers]
  have htt2 : tokenTruthy (some tok) = true := by
    simp [tokenTruthy, htok]
  have hmsg : handleAuthMessage a (some tok) =
      { a with timerActive := false,
               service := { a.service with isInitialized := true },
               isInitialized := true,
               users := a.service.mockProfiles,
               error := none,
               isLoading := false } := by
    simp [handleAuthMessage, initApp, hi, initService, htt2, loadUsers, getUsers]
  refine ⟨rfl, ?_, ?_, ?_, ?_, ?_⟩
  · rw [hfire]
  · rw [hfire]
  · exact timerFire_inactive _ (by rw [hfire])
  · rw [hmsg]
  · exact timerFire_inactive _ (by rw [hmsg])

theorem c6_fallback_timer_witness :
    initTimeoutMs = 1500 ∧
    (timerFire appStart).isInitialized = true ∧
    (timerFire appStart).service.isInitialized = true ∧
    timerFire (timerFire appStart) = timerFire appStart ∧
    (handleAuthMessage appStart (some "real-token")).timerActive = false ∧
    timerFire (handleAuthMessage appStart (some "real-token")) =
      handleAuthMessage appStart (some "real-token") :=
  c6_fallback_timer appStart "real-token" rfl rfl rfl (by decide)

/-- **C7** — The list filter is a pure function of the profile list and
the search term: it depends only on the lowercased term
(case-insensitivity), the empty term returns the input list unchanged,
the output is a sublist of the input (the source list is not mutated),
membership is exactly case-insensitive substring matching of the term
against the username, and "ALICE" matches `alice@example.com`. -/
theorem c7_filter (users : List UserProfile) (t₁ t₂ : String)
    (u : UserProfile)
    (h : strToLower t₁ = strToLower t₂) :
    filteredUsers users t₁ = filteredUsers users t₂ ∧
    filteredUsers users "" = users ∧
    List.Sublist (filteredUsers users t₁) users ∧
    (u ∈ filteredUsers users t₁ ↔
      u ∈ users ∧ strIncludes (strToLower u.username) (strToLower t₁) = true) ∧
    filteredUsers [{ id := "u1", username := "alice@example.com" }] "ALICE" =
      [{ id := "u1", username := "alice@example.com" }] := by
  refine ⟨?_, filteredUsers_empty_term users, ?_, ?_, ?_⟩
  · simp [filteredUsers, h]
  · exact List.filter_sublist users
  · simp [filteredUsers, List.mem_filter]
  · rfl

theorem c7_filter_witness :
    filteredUsers [{ id := "u1", username := "alice@example.com" }] "ALICE" =
      filteredUsers [{ id := "u1", username := "alice@example.com" }] "alice" ∧
    filteredUsers [{ id := "u1", username := "alice@example.com" }] "" =
      [{ id := "u1", username := "alice@example.com" }] ∧
    List.Sublist
      (filteredUsers [{ id := "u1", username := "alice@example.com" }] "ALICE")
      [{ id := "u1", username := "alice@example.com" }] ∧
    (({ id := "u1", username := "alice@example.com" } : UserProfile) ∈
        filteredUsers [{ id := "u1", username := "alice@example.com" }] "ALICE" ↔
      ({ id := "u1", username := "alice@example.com" } : UserProfile) ∈
          [{ id := "u1", username := "alice@example.com" }] ∧
        strIncludes (strToLower "alice@example.com") (strToLower "ALICE") = true) ∧
    filteredUsers [{ id := "u1", username := "alice@example.com" }] "ALICE" =
      [{ id := "u1", username := "alice@example.com" }] :=
  c7_filter [{ id := "u1", username := "alice@example.com" }] "ALICE" "alice"
    { id := "u1", username := "alice@example.com" } rfl

/-- **C8** — When the Session Gate is ready, `getUsers` returns exactly
the store contents at call time (a snapshot; the call changes no
state), the store stays operational across a delete, and after a delete
the next fetch returns the old snapshot with the deleted id filtered
out — the old snapshot value itself is what determines it, so a
previously returned sequence is not altered by the mutation. -/
theorem c8_snapshot (s : ServiceState) (uid : String) (s' : ServiceState)
    (r : Except ServiceError Unit)
    (hinit : s.isInitialized = true)
    (hdel : deleteUser s uid = (s', r)) :
    getUsers s = Except.ok s.mockProfiles ∧
    s'.isInitialized = true ∧
    getUsers s' = Except.ok (s.mockProfiles.filter (fun p => p.id != uid)) := by
  have hstate : s' =
      { isInitialized := true,
        mockProfiles := s.mockProfiles.filter (fun p => p.id != uid) } := by
    by_cases hlt : (s.mockProfiles.filter (fun p => p.id != uid)).length <
        s.mockProfiles.length
    · have hd := hdel
      simp [deleteUser, hinit, hlt] at hd
      exact hd.1.symm
    · have hd := hdel
      simp [deleteUser, hinit, hlt] at hd
      exact hd.1.symm
  refine ⟨by simp [getUsers, hinit], ?_, ?_⟩
  · rw [hstate]
  · rw [hstate]; simp [getUsers]

theorem c8_snapshot_witness :
    getUsers storeW = Except.ok storeW.mockProfiles ∧
    ({ isInitialized := true,
       mockProfiles := [{ id := "u2", username := "bob@example.com" }] } :
        ServiceState).isInitialized = true ∧
    getUsers ({ isInitialized := true,
                mockProfiles := [{ id := "u2", username := "bob@example.com" }] } :
        ServiceState) =
      Except.ok (storeW.mockProfiles.filter (fun p => p.id != "u1")) :=
  c8_snapshot storeW "u1"
    { isInitialized := true,
      mockProfiles := [{ id := "u2", username := "bob@example.com" }] }
    (Except.ok ()) rfl rfl

/-- **C9** — When a confirmed deletion's service call fails, the flow
shows an error toast carrying the failure reason, clears the pending
deletion target (back to idle), and performs no refresh: the displayed
list and the emitted messages are exactly as before. -/
theorem c9_delete_failure (a : AppState) (u : UserProfile)
    (s' : ServiceState) (e : ServiceError)
    (hu : a.userToDelete = some u)
    (hdel : deleteUser a.service u.id = (s', Except.error e)) :
    handleConfirmDelete a =
      { a with service := s',
               toast := some { message := "Falha ao deletar usuário: "
                                 ++ e.message,
                               kind := ToastKind.error },
               userToDelete := none } ∧
    (handleConfirmDelete a).users = a.users ∧
    (handleConfirmDelete a).emitted = a.emitted ∧
    (handleConfirmDelete a).userToDelete = none ∧
    (handleConfirmDelete a).toast =
      some { message := "Falha ao deletar usuário: " ++ e.message,
             kind := ToastKind.error } := by
  have h1 : handleConfirmDelete a =
      { a with service := s',
               toast := some { message := "Falha ao deletar usuário: "
                                 ++ e.message,
                               kind := ToastKind.error },
               userToDelete := none } := by
    simp [handleConfirmDelete, hu, hdel]
  exact ⟨h1, by rw [h1], by rw [h1], by rw [h1], by rw [h1]⟩

theorem c9_delete_failure_witness :
    handleConfirmDelete appDeleting =
      { appDeleting with
        service := { isInitialized := true,
                     mockProfiles := [{ id := "u1", username := "alice@example.com" }] },
        toast := some { message := "Falha ao deletar usuário: "
                          ++ (ServiceError.notFound "u2").message,
                        kind := ToastKind.error },
        userToDelete := none } ∧
    (handleConfirmDelete appDeleting).users = appDeleting.users ∧
    (handleConfirmDelete appDeleting).emitted = appDeleting.emitted ∧
    (handleConfirmDelete appDeleting).userToDelete = none ∧
    (handleConfirmDelete appDeleting).toast =
      some { message := "Falha ao deletar usuário: "
               ++ (ServiceError.notFound "u2").message,
             kind := ToastKind.error } :=
  c9_delete_failure appDeleting { id := "u2", username := "bob@example.com" }
    { isInitialized := true,
      mockProfiles := [{ id := "u1", username := "alice@example.com" }] }
    (ServiceError.notFound "u2") rfl rfl

/-- **C10** — Any non-empty token string — the placeholder development
token included — makes `initService` succeed and the gate ready; the
token content is never validated, and in the resulting state fetching
succeeds and deleting is never rejected for lack of authorization. -/
theorem c10_any_token_grants_access (s : ServiceState) (t : String)
    (uid : String) (ht : t ≠ "") :
    initService s (some t) = ({ s with isInitialized := true }, Except.ok ()) ∧
    (initService s (some t)).1.isInitialized = true ∧
    getUsers (initService s (some t)).1 = Except.ok s.mockProfiles ∧
    (initService s (some devMockToken)).1.isInitialized = true ∧
    (deleteUser (initService s (some t)).1 uid).2 ≠
      Except.error ServiceError.notInitialized := by
  have htt : tokenTruthy (some t) = true := by simp [tokenTruthy, ht]
  have h1 : initService s (some t) =
      ({ s with isInitialized := true }, Except.ok ()) := by
    simp [initService, htt]
  refine ⟨h1, ?_, ?_, ?_, ?_⟩
  · rw [h1]
  · rw [h1]; simp [getUsers]
  · have : tokenTruthy (some devMockToken) = true := rfl
    simp [initService, this]
  · rw [h1]
    exact deleteUser_init_no_notInitialized _ uid rfl

theorem c10_any_token_grants_access_witness :
    initService { isInitialized := false, mockProfiles := [] }
        (some devMockToken) =
      ({ isInitialized := true, mockProfiles := [] }, Except.ok ()) ∧
    (initService { isInitialized := false, mockProfiles := [] }
        (some devMockToken)).1.isInitialized = true ∧
    getUsers (initService { isInitialized := false, mockProfiles := [] }
        (some devMockToken)).1 = Except.ok [] ∧
    (initService { isInitialized := false, mockProfiles := [] }
        (some devMockToken)).1.isInitialized = true ∧
    (deleteUser (initService { isInitialized := false, mockProfiles := [] }
        (some devMockToken)).1 "u1").2 ≠
      Except.error ServiceError.notInitialized :=
  c10_any_token_grants_access { isInitialized := false, mockProfiles := [] }
    devMockToken "u1" (by decide)
